import Mathlib

/-
Verification of the poseidon-garmin-api ingestion and query layer.

The Python source (src/api/resources/garmin_activity.py and
src/api/resources/garmin_geojson.py) is shallowly embedded below:
JSON scalar values become the inductive `JVal`, Python dicts become
association lists (`Record`), the point builders, the activity filter,
the batch writer and the two track aggregators become executable Lean
functions, and the handler bodies become functions returning the list of
store-write calls together with the HTTP status and body status.
Python floats carry no arithmetic in this code (they are only converted,
compared and stored), so they are modelled exactly by rationals.
-/

namespace Garmin

/-- A JSON scalar value as it appears in an activity payload or a query
row.  `vnull` models Python `None` (also the result of `dict.get` on an
absent key). -/
inductive JVal where
  | vnull
  | vbool (b : Bool)
  | vnum (q : Rat)
  | vstr (s : String)
deriving DecidableEq, Repr

/-- A Python dict of JSON scalars, in insertion order. -/
abbrev Record := List (String × JVal)

/-- Models Python `record.get(k)`: the value of the first binding of `k`,
or null when the key is absent. -/
def pyGet (r : Record) (k : String) : JVal :=
  (List.lookup k r).getD JVal.vnull

/-- Python truthiness of a JSON scalar, as used by `all([...])` in the
aggregators: null, 0, the empty string and False are falsy. -/
def JVal.truthy : JVal → Bool
  | JVal.vnull => false
  | JVal.vbool b => b
  | JVal.vnum q => decide (q ≠ 0)
  | JVal.vstr s => decide (s ≠ "")

/-- Embeds `filter_fields` from garmin_activity.py: keep the bindings
whose key is not excluded and whose value is not null. -/
def filter_fields (data : Record) (excludeKeys : List String) : Record :=
  data.filter (fun kv => decide (kv.1 ∉ excludeKeys) && decide (kv.2 ≠ JVal.vnull))

/-- Embeds `filter_tags` from garmin_activity.py: keep the bindings whose
value is not null. -/
def filter_tags (tags : Record) : Record :=
  tags.filter (fun kv => decide (kv.2 ≠ JVal.vnull))

/-- A time-series point as assembled by the handlers: measurement name,
tag mapping, field mapping and timestamp value. -/
structure Point where
  measurement : String
  tags : Record
  fields : Record
  time : JVal
deriving DecidableEq, Repr

/-- The field-exclusion list used for summary points. -/
def summaryExclude : List String :=
  ["userId", "activityType", "activityId", "deviceName"]

/-- The field-exclusion list used for sample points. -/
def sampleExclude : List String :=
  ["userId", "activityType", "activityId"]

/-- Embeds the summary-point construction in `GarminActivity.post`
(garmin_activity.py lines 73-83).  Note that the tags dict is built
directly, without `filter_tags`, and the time is `activity.get(...)`. -/
def buildSummaryPoint (activity : Record) : Point :=
  { measurement := "garmin_activity"
  , tags := [("userId", pyGet activity "userId"),
             ("activityType", pyGet activity "activityType"),
             ("activityId", pyGet activity "activityId"),
             ("deviceName", pyGet activity "deviceName")]
  , fields := filter_fields activity summaryExclude
  , time := pyGet activity "startTimeInSeconds" }

/-- One element of the `activityDetails` payload: the top-level detail
dict plus its `summary` dict (default empty) and `samples` list (default
empty), as read by `GarminActivityDetails.post`. -/
structure Detail where
  record : Record
  summary : Record
  samples : List Record
deriving DecidableEq, Repr

/-- Embeds the detail-summary-point construction in
`GarminActivityDetails.post` (garmin_activity.py lines 112-122): here the
tags are passed through `filter_tags`. -/
def buildDetailsSummaryPoint (d : Detail) : Point :=
  { measurement := "garmin_activity_details"
  , tags := filter_tags [("userId", pyGet d.record "userId"),
                         ("activityType", pyGet d.summary "activityType"),
                         ("activityId", pyGet d.summary "activityId"),
                         ("deviceName", pyGet d.summary "deviceName")]
  , fields := filter_fields d.summary summaryExclude
  , time := pyGet d.summary "startTimeInSeconds" }

/-- Embeds the sample-point construction in `GarminActivityDetails.post`
(garmin_activity.py lines 125-136). -/
def buildSamplePoint (d : Detail) (sample : Record) : Point :=
  { measurement := "garmin_activity_samples"
  , tags := filter_tags [("userId", pyGet d.record "userId"),
                         ("activityType", pyGet d.summary "activityType"),
                         ("activityId", pyGet d.summary "activityId")]
  , fields := filter_fields sample sampleExclude
  , time := pyGet sample "startTimeInSeconds" }

/-- Embeds `is_activity_allowed` (garmin_activity.py lines 45-46):
`not ALLOWED_ACTIVITY_TYPES or activity_type in ALLOWED_ACTIVITY_TYPES`,
with the configured allow-set passed explicitly.  A non-string activity
type is never a member of a set of strings. -/
def is_activity_allowed (allowedTypes : List String) (activityType : JVal) : Bool :=
  allowedTypes.isEmpty ||
    (match activityType with
     | JVal.vstr s => allowedTypes.contains s
     | _ => false)

/-- Embeds `MAX_BATCH_SIZE = 500` (garmin_activity.py line 54). -/
def MAX_BATCH_SIZE : Nat := 500

/-- Contiguous chunks of size `n`, mirroring
`records[i:i + MAX_BATCH_SIZE]` for `i in range(0, len(records), n)`. -/
def chunkList (n : Nat) : List α → List (List α)
  | [] => []
  | x :: xs => (x :: xs.take (n - 1)) :: chunkList n (xs.drop (n - 1))
termination_by l => l.length
decreasing_by
  simp only [List.length_drop, List.length_cons]
  omega

/-- Embeds `write_in_batches` (garmin_activity.py lines 56-59): the list
of per-call batches, in call order. -/
def write_in_batches (records : List Point) : List (List Point) :=
  chunkList MAX_BATCH_SIZE records

/-- Embeds the body of `GarminActivity.post` (garmin_activity.py lines
62-87) on its happy path: returns the list of points passed to
`influx_client.write` (one write call per point, in loop order) together
with the HTTP status and the body's `status` string.  An empty list is
rejected with 400 before any write. -/
def garminActivityPost (allowedTypes : List String) (activities : List Record) :
    List Point × Nat × String :=
  if activities.isEmpty then ([], 400, "error")
  else
    (activities.filterMap (fun a =>
        if is_activity_allowed allowedTypes (pyGet a "activityType")
        then some (buildSummaryPoint a) else none),
     200, "success")

/-- Embeds the accumulation loop of `GarminActivityDetails.post`
(garmin_activity.py lines 103-136): for each detail that passes the
activity filter, append its summary point and the sample points of all
its samples. -/
def detailPoints (allowedTypes : List String) (details : List Detail) :
    List Point × List Point :=
  details.foldl
    (fun acc d =>
      if is_activity_allowed allowedTypes (pyGet d.summary "activityType") then
        (acc.1 ++ [buildDetailsSummaryPoint d],
         acc.2 ++ d.samples.map (buildSamplePoint d))
      else acc)
    ([], [])

/-- Embeds the body of `GarminActivityDetails.post` (garmin_activity.py
lines 96-149) on its happy path: the batched write calls issued (summary
batches first, then sample batches, each guarded by a non-emptiness
check), the HTTP status and the body's `status` string. -/
def garminDetailsPost (allowedTypes : List String) (details : List Detail) :
    List (List Point) × Nat × String :=
  if details.isEmpty then ([], 400, "error")
  else
    let pts := detailPoints allowedTypes details
    ((if pts.1.isEmpty then [] else write_in_batches pts.1) ++
       (if pts.2.isEmpty then [] else write_in_batches pts.2),
     200, "success")

/-- Embeds the exception branch of `GarminActivityDetails.post`
(garmin_activity.py lines 150-154). -/
structure ErrorResponse where
  httpStatus : Nat
  errorMessage : String
  bodyStatus : String
deriving DecidableEq, Repr

/-- Models the Python substring test `"503" in s` on the characters of
the message. -/
def strContains503 : List Char → Bool
  | '5' :: '0' :: '3' :: _ => true
  | _ :: rest => strContains503 rest
  | [] => false

/-- Embeds `GarminActivityDetails.post`'s except clause (garmin_activity.py
lines 150-154): 503 with a fixed message when the exception text contains
"503", otherwise 500 with the exception text; both bodies carry
status "error". -/
def detailsErrorHandler (msg : String) : ErrorResponse :=
  if strContains503 msg.toList then
    { httpStatus := 503
    , errorMessage := "Service temporarily unavailable. Please try again later."
    , bodyStatus := "error" }
  else
    { httpStatus := 500, errorMessage := msg, bodyStatus := "error" }

/-!
Track aggregation.  Both GeoJSON resource variants fold the query rows
into a dict keyed by activity id, preserving first-sight key order and
per-key row order; they differ in which fields the validity test
inspects and in whether start/end timestamps are tracked.
-/

/-- Lookup in an association list with JVal keys (Python dict read). -/
def assocLookup (acc : List (JVal × β)) (k : JVal) : Option β :=
  match acc with
  | [] => none
  | (k', v) :: rest => if k' = k then some v else assocLookup rest k

/-- Update in an association list with JVal keys: apply `g` to the
current binding (passed as `some v`), or to `none` when the key is new,
in which case the binding is appended (Python dict insertion order). -/
def assocUpdate (acc : List (JVal × β)) (k : JVal) (g : Option β → β) :
    List (JVal × β) :=
  match acc with
  | [] => [(k, g none)]
  | (k', v) :: rest =>
      if k' = k then (k', g (some v)) :: rest
      else (k', v) :: assocUpdate rest k g

/-- The generic aggregation loop shared by both GeoJSON variants: rows
are scanned in order; a row failing the validity test is skipped, a
valid row updates the accumulator entry of its activity id. -/
def aggFold (valid : Record → Bool) (step : Record → Option β → β)
    (rows : List Record) (acc : List (JVal × β)) : List (JVal × β) :=
  match rows with
  | [] => acc
  | r :: rest =>
      aggFold valid step rest
        (if valid r then assocUpdate acc (pyGet r "activityId") (step r) else acc)

/-- Replays the per-key updates of a single activity over the rows that
reached it, starting from its (possibly absent) previous state. -/
def recFold (step : Record → Option β → β) (o : Option β) (rows : List Record) :
    Option β :=
  match rows with
  | [] => o
  | r :: rest => recFold step (some (step r o)) rest

/-- The rows of `rows` that pass the validity test and belong to the
activity `aid`. -/
def rowsFor (valid : Record → Bool) (rows : List Record) (aid : JVal) :
    List Record :=
  rows.filter (fun r => valid r && decide (pyGet r "activityId" = aid))

/-- Models the Python `float(x)` conversion on the JSON scalars the
aggregators meet: numbers convert to themselves and booleans to 0 or 1;
null has no float value (the conversion raises).  Conversion of numeric
strings is not modelled; the aggregation theorems assume numeric
coordinates and timestamps. -/
def toFloat? : JVal → Option Rat
  | JVal.vnum q => some q
  | JVal.vbool b => some (if b then 1 else 0)
  | _ => none

/-- The `(longitude, latitude)` pair appended for an accepted row, after
float conversion. -/
def coordOfRow (r : Record) : Rat × Rat :=
  ((toFloat? (pyGet r "longitudeInDegree")).getD 0,
   (toFloat? (pyGet r "latitudeInDegree")).getD 0)

/-- Embeds the row-validity test of `GarminActivityGeoJSON.get` in
garmin_activity.py (line 215): Python
`all([activity_id, latitude, longitude, time_field])`, a truthiness
test. -/
def sqlRowValid (r : Record) : Bool :=
  (pyGet r "activityId").truthy && (pyGet r "latitudeInDegree").truthy &&
    (pyGet r "longitudeInDegree").truthy && (pyGet r "time").truthy

/-- The per-row accumulator update of the garmin_activity.py aggregator:
append the converted coordinate pair to the activity's list (empty on
first sight). -/
def sqlStep (r : Record) (o : Option (List (Rat × Rat))) : List (Rat × Rat) :=
  o.getD [] ++ [coordOfRow r]

/-- Embeds the aggregation loop of `GarminActivityGeoJSON.get` in
garmin_activity.py (lines 204-228), including the fatal error raised by
a failing `float(...)` conversion on an accepted row. -/
def sqlAggregate (rows : List Record)
    (acc : List (JVal × List (Rat × Rat))) :
    Except String (List (JVal × List (Rat × Rat))) :=
  match rows with
  | [] => Except.ok acc
  | r :: rest =>
      if sqlRowValid r then
        match toFloat? (pyGet r "latitudeInDegree"),
            toFloat? (pyGet r "longitudeInDegree") with
        | some _, some _ =>
            sqlAggregate rest (assocUpdate acc (pyGet r "activityId") (sqlStep r))
        | _, _ => Except.error "could not convert value to float"
      else sqlAggregate rest acc

/-- A GeoJSON LineString feature as built by garmin_activity.py. -/
structure GeoFeature where
  activityID : JVal
  coordinates : List (Rat × Rat)
deriving DecidableEq, Repr

/-- Embeds the feature-building loop of garmin_activity.py (lines
231-240): activities whose coordinate list is empty are dropped.  The
defensive `None not in coord` filter removes nothing here because the
aggregator only ever appends converted float pairs. -/
def buildFeatures (acts : List (JVal × List (Rat × Rat))) : List GeoFeature :=
  match acts with
  | [] => []
  | (aid, coords) :: rest =>
      if coords.isEmpty then buildFeatures rest
      else { activityID := aid, coordinates := coords } :: buildFeatures rest

/-- The complete row-processing pipeline of `GarminActivityGeoJSON.get`
in garmin_activity.py: aggregate the query rows, then build features. -/
def sqlGeoJSON (rows : List Record) : Except String (List GeoFeature) :=
  (sqlAggregate rows []).map buildFeatures

/-- First feature with the given activity id, if any. -/
def featureCoords (fs : List GeoFeature) (aid : JVal) : Option (List (Rat × Rat)) :=
  match fs with
  | [] => none
  | f :: rest => if f.activityID = aid then some f.coordinates else featureCoords rest aid

/-- The per-activity accumulator of the garmin_geojson.py aggregator:
coordinate list, running start and end timestamps, and the activity type
captured at first sight. -/
structure ActAcc where
  coordinates : List (Rat × Rat)
  start_time : Rat
  end_time : Rat
  activity_type : JVal
deriving DecidableEq, Repr

/-- Embeds the row-validity test of `GarminActivityGeoJSON.get` in
garmin_geojson.py (line 97): Python
`all([activity_id, latitude, longitude, activity_type])`. -/
def geoRowValid (r : Record) : Bool :=
  (pyGet r "activityId").truthy && (pyGet r "latitudeInDegree").truthy &&
    (pyGet r "longitudeInDegree").truthy && (pyGet r "activityType").truthy

/-- The row's timestamp (the pivot row key `_time`), as a rational. -/
def timeOf (r : Record) : Rat := (toFloat? (pyGet r "_time")).getD 0

/-- The fresh per-activity state created on first sight in
garmin_geojson.py (lines 104-109). -/
def geoFresh (t : Rat) (atype : JVal) : ActAcc :=
  { coordinates := [], start_time := t, end_time := t, activity_type := atype }

/-- The mutation applied to an activity's state for each accepted row in
garmin_geojson.py (lines 111-114): append the coordinate pair and fold
the timestamp into the running min and max. -/
def geoUpd (c : Rat × Rat) (t : Rat) (a : ActAcc) : ActAcc :=
  { a with
    coordinates := a.coordinates ++ [c],
    start_time := min a.start_time t,
    end_time := max a.end_time t }

/-- The per-row accumulator update of the garmin_geojson.py aggregator. -/
def geoStep (r : Record) (o : Option ActAcc) : ActAcc :=
  geoUpd (coordOfRow r) (timeOf r)
    (o.getD (geoFresh (timeOf r) (pyGet r "activityType")))

/-- Embeds the aggregation loop of `GarminActivityGeoJSON.get` in
garmin_geojson.py (lines 86-114), including the fatal error raised by a
failing conversion or a non-comparable timestamp on an accepted row. -/
def geoAggregate (rows : List Record) (acc : List (JVal × ActAcc)) :
    Except String (List (JVal × ActAcc)) :=
  match rows with
  | [] => Except.ok acc
  | r :: rest =>
      if geoRowValid r then
        match toFloat? (pyGet r "latitudeInDegree"),
            toFloat? (pyGet r "longitudeInDegree"),
            toFloat? (pyGet r "_time") with
        | some _, some _, some _ =>
            geoAggregate rest (assocUpdate acc (pyGet r "activityId") (geoStep r))
        | _, _, _ => Except.error "could not process row"
      else geoAggregate rest acc

/-- A GeoJSON LineString feature as built by garmin_geojson.py, with its
property set. -/
structure GeoFeatureT where
  activityId : JVal
  activityType : JVal
  start_time : Rat
  end_time : Rat
  coordinates : List (Rat × Rat)
deriving DecidableEq, Repr

/-- Embeds the feature-building loop of garmin_geojson.py (lines
117-134): activities whose coordinate list is empty are dropped. -/
def buildGeoFeatures (acts : List (JVal × ActAcc)) : List GeoFeatureT :=
  match acts with
  | [] => []
  | (aid, a) :: rest =>
      if a.coordinates.isEmpty then buildGeoFeatures rest
      else { activityId := aid, activityType := a.activity_type
           , start_time := a.start_time, end_time := a.end_time
           , coordinates := a.coordinates } :: buildGeoFeatures rest

/-- First feature with the given activity id, if any. -/
def geoFeatureFind (fs : List GeoFeatureT) (aid : JVal) : Option GeoFeatureT :=
  match fs with
  | [] => none
  | f :: rest => if f.activityId = aid then some f else geoFeatureFind rest aid

/-- The timestamps of the rows accepted by the garmin_geojson.py
aggregator for the activity `aid`, in row order. -/
def timesFor (rows : List Record) (aid : JVal) : List Rat :=
  (rowsFor geoRowValid rows aid).map timeOf

/-- Embeds the time-window construction of `GarminActivityGeoJSON.get`
in garmin_activity.py (line 181): `end_of_day = start_of_day +
timedelta(days=1)`, at epoch-seconds granularity. -/
def end_of_day (start_of_day : Int) : Int := start_of_day + 86400

/-- Transcribes the WHERE clause of the SQL query built in
garmin_activity.py (lines 184-191): `time >= start_of_day AND time <=
end_of_day`, as a predicate on an epoch-seconds timestamp. -/
def sqlTimeWindow (start_of_day t : Int) : Bool :=
  decide (start_of_day ≤ t) && decide (t ≤ end_of_day start_of_day)

/-!
Concrete inputs used by counterexamples and witnesses.
-/

/-- An activity whose `deviceName` is null in the source record. -/
def c1activity : Record :=
  [("userId", JVal.vstr "u1"), ("deviceName", JVal.vnull),
   ("startTimeInSeconds", JVal.vnum 100)]

/-- A detail used to instantiate the null-free-points theorem. -/
def c1wDetail : Detail :=
  { record := [("userId", JVal.vstr "u1")]
  , summary := [("activityType", JVal.vstr "running"),
                ("startTimeInSeconds", JVal.vnum 5)]
  , samples := [] }

/-- A query row with a non-null latitude equal to zero. -/
def c2row : Record :=
  [("activityId", JVal.vstr "a1"), ("latitudeInDegree", JVal.vnum 0),
   ("longitudeInDegree", JVal.vnum 5), ("time", JVal.vnum 1)]

/-- A fully truthy query row for the same activity. -/
def c2wrow : Record :=
  [("activityId", JVal.vstr "a1"), ("latitudeInDegree", JVal.vnum 1),
   ("longitudeInDegree", JVal.vnum 5), ("time", JVal.vnum 3)]

/-- A summary record with two ordinary numeric fields. -/
def c3summary : Record :=
  [("startTimeInSeconds", JVal.vnum 1), ("durationInSeconds", JVal.vnum 100)]

/-- An activity record with no `startTimeInSeconds` key. -/
def c4activity : Record :=
  [("userId", JVal.vstr "u1"), ("activityType", JVal.vstr "running"),
   ("activityId", JVal.vstr "a1"), ("durationInSeconds", JVal.vnum 60)]

/-- A pivot row with non-null zero latitude and the earlier timestamp. -/
def c7row1 : Record :=
  [("activityId", JVal.vstr "a1"), ("latitudeInDegree", JVal.vnum 0),
   ("longitudeInDegree", JVal.vnum 1), ("activityType", JVal.vstr "running"),
   ("_time", JVal.vnum 5)]

/-- A fully truthy pivot row for the same activity, at the later time. -/
def c7row2 : Record :=
  [("activityId", JVal.vstr "a1"), ("latitudeInDegree", JVal.vnum 2),
   ("longitudeInDegree", JVal.vnum 1), ("activityType", JVal.vstr "running"),
   ("_time", JVal.vnum 10)]

/-- A point used to exercise the batch writer. -/
def wbPoint : Point :=
  { measurement := "m", tags := [], fields := [], time := JVal.vnull }

/-- An activity whose type is outside the allow-set below. -/
def c10activity : Record := [("activityType", JVal.vstr "walking")]

/-- A detail whose summary type is outside the allow-set below. -/
def c10detail : Detail :=
  { record := [], summary := [("activityType", JVal.vstr "walking")]
  , samples := [] }

/-!
Helper lemmas shared by the claims below.
-/

theorem assocLookup_update_self (acc : List (JVal × β)) (k : JVal)
    (g : Option β → β) :
    assocLookup (assocUpdate acc k g) k = some (g (assocLookup acc k)) := by
  induction acc with
  | nil => simp [assocUpdate, assocLookup]
  | cons p rest ih =>
      obtain ⟨k', v⟩ := p
      by_cases h : k' = k <;> simp [assocUpdate, assocLookup, h, ih]

theorem assocLookup_update_other (acc : List (JVal × β)) (k k' : JVal)
    (g : Option β → β) (h : k' ≠ k) :
    assocLookup (assocUpdate acc k g) k' = assocLookup acc k' := by
  induction acc with
  | nil =>
      simp only [assocUpdate, assocLookup]
      rw [if_neg (fun hk => h hk.symm)]
  | cons p rest ih =>
      obtain ⟨k₀, v⟩ := p
      by_cases hk : k₀ = k <;> by_cases hk' : k₀ = k' <;>
        simp_all [assocUpdate, assocLookup]

theorem assocUpdate_values (acc : List (JVal × β)) (k : JVal)
    (g : Option β → β) (P : β → Prop) (hacc : ∀ p ∈ acc, P p.2)
    (hg : ∀ o, P (g o)) : ∀ p ∈ assocUpdate acc k g, P p.2 := by
  induction acc with
  | nil =>
      intro p hp
      simp [assocUpdate] at hp
      subst hp
      exact hg none
  | cons q rest ih =>
      obtain ⟨k₀, v⟩ := q
      intro p hp
      by_cases hk : k₀ = k
      · simp [assocUpdate, hk] at hp
        rcases hp with hp | hp
        · subst hp; exact hg (some v)
        · exact hacc p (List.mem_cons_of_mem _ hp)
      · simp [assocUpdate, hk] at hp
        rcases hp with hp | hp
        · subst hp; exact hacc (k₀, v) (List.mem_cons_self _ _)
        · exact ih (fun q hq => hacc q (List.mem_cons_of_mem _ hq)) p hp

theorem aggFold_lookup (valid : Record → Bool) (step : Record → Option β → β)
    (rows : List Record) (acc : List (JVal × β)) (aid : JVal) :
    assocLookup (aggFold valid step rows acc) aid =
      recFold step (assocLookup acc aid) (rowsFor valid rows aid) := by
  induction rows generalizing acc with
  | nil => rfl
  | cons r rest ih =>
      by_cases hv : valid r
      · by_cases hk : pyGet r "activityId" = aid
        · rw [show aggFold valid step (r :: rest) acc =
              aggFold valid step rest (assocUpdate acc (pyGet r "activityId") (step r)) by
                simp [aggFold, hv]]
          rw [ih]
          rw [show rowsFor valid (r :: rest) aid = r :: rowsFor valid rest aid by
                simp [rowsFor, List.filter_cons, hv, hk]]
          rw [show recFold step (assocLookup acc aid) (r :: rowsFor valid rest aid) =
              recFold step (some (step r (assocLookup acc aid))) (rowsFor valid rest aid)
              from rfl]
          rw [hk, assocLookup_update_self]
        · rw [show aggFold valid step (r :: rest) acc =
              aggFold valid step rest (assocUpdate acc (pyGet r "activityId") (step r)) by
                simp [aggFold, hv]]
          rw [ih, assocLookup_update_other _ _ _ _ (fun h => hk h.symm)]
          rw [show rowsFor valid (r :: rest) aid = rowsFor valid rest aid by
                simp [rowsFor, List.filter_cons, hv, hk]]
      · rw [show aggFold valid step (r :: rest) acc = aggFold valid step rest acc by
              simp [aggFold, hv]]
        rw [ih]
        rw [show rowsFor valid (r :: rest) aid = rowsFor valid rest aid by
              simp [rowsFor, List.filter_cons, hv]]

theorem aggFold_values (valid : Record → Bool) (step : Record → Option β → β)
    (P : β → Prop) (hstep : ∀ r o, P (step r o)) (rows : List Record)
    (acc : List (JVal × β)) (hacc : ∀ p ∈ acc, P p.2) :
    ∀ p ∈ aggFold valid step rows acc, P p.2 := by
  induction rows generalizing acc with
  | nil => exact hacc
  | cons r rest ih =>
      intro p hp
      by_cases hv : valid r
      · simp only [aggFold, hv, if_pos] at hp
        exact ih _ (assocUpdate_values _ _ _ P hacc (fun o => hstep r o)) p hp
      · simp only [aggFold, hv] at hp
        exact ih _ hacc p hp

theorem recFold_some (step : Record → Option β → β) (rows : List Record) (v : β) :
    recFold step (some v) rows =
      some (rows.foldl (fun b r => step r (some b)) v) := by
  induction rows generalizing v with
  | nil => rfl
  | cons r rest ih => simp [recFold, List.foldl, ih]

theorem sqlAggregate_ok (rows : List Record)
    (acc : List (JVal × List (Rat × Rat)))
    (h : ∀ r ∈ rows, sqlRowValid r = true →
      (toFloat? (pyGet r "latitudeInDegree")).isSome ∧
        (toFloat? (pyGet r "longitudeInDegree")).isSome) :
    sqlAggregate rows acc = Except.ok (aggFold sqlRowValid sqlStep rows acc) := by
  induction rows generalizing acc with
  | nil => rfl
  | cons r rest ih =>
      by_cases hv : sqlRowValid r = true
      · obtain ⟨h1, h2⟩ := h r (List.mem_cons_self _ _) hv
        obtain ⟨la, hla⟩ := Option.isSome_iff_exists.mp h1
        obtain ⟨lo, hlo⟩ := Option.isSome_iff_exists.mp h2
        simp only [sqlAggregate, aggFold, hv, if_pos, hla, hlo]
        exact ih _ (fun q hq => h q (List.mem_cons_of_mem _ hq))
      · simp only [sqlAggregate, aggFold, hv]
        simp only [Bool.false_eq_true, if_false]
        exact ih _ (fun q hq => h q (List.mem_cons_of_mem _ hq))

theorem foldl_sqlStep (rows : List Record) (v : List (Rat × Rat)) :
    rows.foldl (fun b r => sqlStep r (some b)) v = v ++ rows.map coordOfRow := by
  induction rows generalizing v with
  | nil => simp
  | cons r rest ih =>
      rw [List.foldl_cons, ih]
      simp [sqlStep]

theorem recFold_sqlStep_none (rows : List Record) (h : rows ≠ []) :
    recFold sqlStep none rows = some (rows.map coordOfRow) := by
  match rows with
  | [] => exact absurd rfl h
  | r :: rest =>
      rw [show recFold sqlStep none (r :: rest) =
          recFold sqlStep (some (sqlStep r none)) rest from rfl]
      rw [recFold_some, foldl_sqlStep]
      simp [sqlStep]

theorem featureCoords_buildFeatures (acts : List (JVal × List (Rat × Rat)))
    (aid : JVal) (h : ∀ p ∈ acts, p.2 ≠ []) :
    featureCoords (buildFeatures acts) aid = assocLookup acts aid := by
  induction acts with
  | nil => rfl
  | cons p rest ih =>
      obtain ⟨k, coords⟩ := p
      have hne : coords ≠ [] := h (k, coords) (List.mem_cons_self _ _)
      have hrest := ih (fun q hq => h q (List.mem_cons_of_mem _ hq))
      by_cases hk : k = aid <;>
        simp [buildFeatures, featureCoords, assocLookup,
          List.isEmpty_iff, hne, hk, hrest]

theorem geoAggregate_ok (rows : List Record) (acc : List (JVal × ActAcc))
    (h : ∀ r ∈ rows, geoRowValid r = true →
      (toFloat? (pyGet r "latitudeInDegree")).isSome ∧
        (toFloat? (pyGet r "longitudeInDegree")).isSome ∧
        (toFloat? (pyGet r "_time")).isSome) :
    geoAggregate rows acc = Except.ok (aggFold geoRowValid geoStep rows acc) := by
  induction rows generalizing acc with
  | nil => rfl
  | cons r rest ih =>
      by_cases hv : geoRowValid r = true
      · obtain ⟨h1, h2, h3⟩ := h r (List.mem_cons_self _ _) hv
        obtain ⟨la, hla⟩ := Option.isSome_iff_exists.mp h1
        obtain ⟨lo, hlo⟩ := Option.isSome_iff_exists.mp h2
        obtain ⟨ts, hts⟩ := Option.isSome_iff_exists.mp h3
        simp only [geoAggregate, aggFold, hv, if_pos, hla, hlo, hts]
        exact ih _ (fun q hq => h q (List.mem_cons_of_mem _ hq))
      · simp only [geoAggregate, aggFold, hv]
        simp only [Bool.false_eq_true, if_false]
        exact ih _ (fun q hq => h q (List.mem_cons_of_mem _ hq))

theorem geoFoldl_bounds (rows : List Record) (a : ActAcc) :
    ((rows.foldl (fun x r => geoStep r (some x)) a).start_time ∈
        a.start_time :: rows.map timeOf) ∧
    (∀ t ∈ a.start_time :: rows.map timeOf,
        (rows.foldl (fun x r => geoStep r (some x)) a).start_time ≤ t) ∧
    ((rows.foldl (fun x r => geoStep r (some x)) a).end_time ∈
        a.end_time :: rows.map timeOf) ∧
    (∀ t ∈ a.end_time :: rows.map timeOf,
        t ≤ (rows.foldl (fun x r => geoStep r (some x)) a).end_time) := by
  induction rows generalizing a with
  | nil =>
      refine ⟨List.mem_cons_self _ _, ?_, List.mem_cons_self _ _, ?_⟩
      · intro t ht
        simp only [List.map_nil, List.mem_cons, List.not_mem_nil, or_false] at ht
        exact le_of_eq ht.symm
      · intro t ht
        simp only [List.map_nil, List.mem_cons, List.not_mem_nil, or_false] at ht
        exact le_of_eq ht
  | cons r rest ih =>
      have hstep : geoStep r (some a) =
          geoUpd (coordOfRow r) (timeOf r) a := rfl
      have hfold : (r :: rest).foldl (fun x r => geoStep r (some x)) a =
          rest.foldl (fun x r => geoStep r (some x)) (geoUpd (coordOfRow r) (timeOf r) a) := by
        rw [List.foldl_cons, hstep]
      obtain ⟨ihm, ihl, ihm', ihl'⟩ := ih (geoUpd (coordOfRow r) (timeOf r) a)
      rw [hfold]
      refine ⟨?_, ?_, ?_, ?_⟩
      · rcases List.mem_cons.mp ihm with hm | hm
        · rcases min_choice a.start_time (timeOf r) with hc | hc
          · exact List.mem_cons.mpr (Or.inl (hm.trans hc))
          · refine List.mem_cons.mpr (Or.inr ?_)
            simp only [List.map_cons, List.mem_cons]
            exact Or.inl (hm.trans hc)
        · refine List.mem_cons.mpr (Or.inr ?_)
          simp only [List.map_cons, List.mem_cons]
          exact Or.inr hm
      · intro t ht
        rcases List.mem_cons.mp ht with h0 | h0
        · subst h0
          exact le_trans (ihl _ (List.mem_cons_self _ _)) (min_le_left _ _)
        · simp only [List.map_cons, List.mem_cons] at h0
          rcases h0 with h0 | h0
          · subst h0
            exact le_trans (ihl _ (List.mem_cons_self _ _)) (min_le_right _ _)
          · exact ihl _ (List.mem_cons_of_mem _ (List.mem_map.mpr
              (by obtain ⟨q, hq, hq'⟩ := List.mem_map.mp h0; exact ⟨q, hq, hq'⟩)))
      · rcases List.mem_cons.mp ihm' with hm | hm
        · rcases max_choice a.end_time (timeOf r) with hc | hc
          · exact List.mem_cons.mpr (Or.inl (hm.trans hc))
          · refine List.mem_cons.mpr (Or.inr ?_)
            simp only [List.map_cons, List.mem_cons]
            exact Or.inl (hm.trans hc)
        · refine List.mem_cons.mpr (Or.inr ?_)
          simp only [List.map_cons, List.mem_cons]
          exact Or.inr hm
      · intro t ht
        rcases List.mem_cons.mp ht with h0 | h0
        · subst h0
          exact le_trans (le_max_left _ _) (ihl' _ (List.mem_cons_self _ _))
        · simp only [List.map_cons, List.mem_cons] at h0
          rcases h0 with h0 | h0
          · subst h0
            exact le_trans (le_max_right _ _) (ihl' _ (List.mem_cons_self _ _))
          · exact ihl' _ (List.mem_cons_of_mem _ (List.mem_map.mpr
              (by obtain ⟨q, hq, hq'⟩ := List.mem_map.mp h0; exact ⟨q, hq, hq'⟩)))

theorem recFold_geoStep_bounds (rows : List Record) (a : ActAcc)
    (h : recFold geoStep none rows = some a) (hrows : rows ≠ []) :
    (a.start_time ∈ rows.map timeOf) ∧
    (∀ t ∈ rows.map timeOf, a.start_time ≤ t) ∧
    (a.end_time ∈ rows.map timeOf) ∧
    (∀ t ∈ rows.map timeOf, t ≤ a.end_time) := by
  match rows with
  | [] => exact absurd rfl hrows
  | r :: rest =>
      rw [show recFold geoStep none (r :: rest) =
          recFold geoStep (some (geoStep r none)) rest from rfl,
        recFold_some] at h
      have ha : a = rest.foldl (fun x r => geoStep r (some x)) (geoStep r none) :=
        (Option.some_inj.mp h).symm
      have hfresh : geoStep r none =
          geoUpd (coordOfRow r) (timeOf r) (geoFresh (timeOf r) (pyGet r "activityType")) := rfl
      have hst : (geoStep r none).start_time = timeOf r := by
        rw [hfresh]; simp [geoUpd, geoFresh]
      have het : (geoStep r none).end_time = timeOf r := by
        rw [hfresh]; simp [geoUpd, geoFresh]
      obtain ⟨hm, hl, hm', hl'⟩ := geoFoldl_bounds rest (geoStep r none)
      rw [hst] at hm hl
      rw [het] at hm' hl'
      rw [← ha] at hm hl hm' hl'
      simp only [List.map_cons]
      exact ⟨hm, hl, hm', hl'⟩

theorem geoFeatureFind_build (acts : List (JVal × ActAcc)) (aid : JVal)
    (h : ∀ p ∈ acts, p.2.coordinates ≠ []) :
    geoFeatureFind (buildGeoFeatures acts) aid =
      (assocLookup acts aid).map (fun a =>
        { activityId := aid, activityType := a.activity_type
        , start_time := a.start_time, end_time := a.end_time
        , coordinates := a.coordinates }) := by
  induction acts with
  | nil => rfl
  | cons p rest ih =>
      obtain ⟨k, a⟩ := p
      have hne : a.coordinates ≠ [] := h (k, a) (List.mem_cons_self _ _)
      have hrest := ih (fun q hq => h q (List.mem_cons_of_mem _ hq))
      by_cases hk : k = aid <;>
        simp [buildGeoFeatures, geoFeatureFind, assocLookup,
          List.isEmpty_iff, hne, hk, hrest]

theorem chunkList_flatten (n : Nat) (l : List α) : (chunkList n l).flatten = l := by
  match l with
  | [] => simp [chunkList]
  | x :: xs =>
      have ih := chunkList_flatten n (xs.drop (n - 1))
      simp only [chunkList, List.flatten_cons, ih, List.cons_append]
      rw [List.take_append_drop]
termination_by l.length
decreasing_by
  simp only [List.length_drop, List.length_cons]
  omega

theorem chunkList_length (n : Nat) (hn : 0 < n) (l : List α) :
    (chunkList n l).length = (l.length + (n - 1)) / n := by
  match l with
  | [] =>
      simp only [chunkList, List.length_nil, Nat.zero_add]
      exact (Nat.div_eq_of_lt (by omega)).symm
  | x :: xs =>
      have ih := chunkList_length n hn (xs.drop (n - 1))
      simp only [chunkList, List.length_cons, ih, List.length_drop]
      by_cases hc : n - 1 ≤ xs.length
      · rw [Nat.sub_add_cancel hc]
        rw [show xs.length + 1 + (n - 1) = xs.length + n by omega]
        rw [Nat.add_div_right _ hn]
      · have h1 : xs.length - (n - 1) = 0 := by omega
        rw [h1, Nat.zero_add, Nat.div_eq_of_lt (by omega)]
        rw [show xs.length + 1 + (n - 1) = xs.length + n by omega]
        rw [Nat.add_div_right _ hn, Nat.div_eq_of_lt (by omega)]
termination_by l.length
decreasing_by
  simp only [List.length_drop, List.length_cons]
  omega

theorem chunkList_batch_le (n : Nat) (hn : 0 < n) (l : List α) :
    ∀ b ∈ chunkList n l, b.length ≤ n := by
  match l with
  | [] =>
      intro b hb
      simp [chunkList] at hb
  | x :: xs =>
      intro b hb
      simp only [chunkList, List.mem_cons] at hb
      rcases hb with hb | hb
      · subst hb
        simp only [List.length_cons, List.length_take]
        have hmin := Nat.min_le_left (n - 1) xs.length
        omega
      · exact chunkList_batch_le n hn (xs.drop (n - 1)) b hb
termination_by l.length
decreasing_by
  simp only [List.length_drop, List.length_cons]
  omega

theorem filter_fields_no_null (data : Record) (ex : List String) :
    ∀ kv ∈ filter_fields data ex, kv.2 ≠ JVal.vnull := by
  intro kv hkv
  simp only [filter_fields, List.mem_filter, Bool.and_eq_true,
    decide_eq_true_eq] at hkv
  exact hkv.2.2

theorem filter_tags_no_null (tags : Record) :
    ∀ kv ∈ filter_tags tags, kv.2 ≠ JVal.vnull := by
  intro kv hkv
  simp only [filter_tags, List.mem_filter, decide_eq_true_eq] at hkv
  exact hkv.2

theorem detailPoints_all_filtered (allowedTypes : List String)
    (details : List Detail)
    (h : ∀ d ∈ details,
      is_activity_allowed allowedTypes (pyGet d.summary "activityType") = false) :
    detailPoints allowedTypes details = ([], []) := by
  have hgen : ∀ (ds : List Detail),
      (∀ d ∈ ds,
        is_activity_allowed allowedTypes (pyGet d.summary "activityType") = false) →
      ∀ acc : List Point × List Point,
        ds.foldl
          (fun acc d =>
            if is_activity_allowed allowedTypes (pyGet d.summary "activityType") then
              (acc.1 ++ [buildDetailsSummaryPoint d],
               acc.2 ++ d.samples.map (buildSamplePoint d))
            else acc)
          acc = acc := by
    intro ds
    induction ds with
    | nil => intro _ acc; rfl
    | cons d rest ih =>
        intro hds acc
        rw [List.foldl_cons]
        rw [if_neg (by rw [hds d (List.mem_cons_self _ _)]; exact Bool.false_ne_true)]
        exact ih (fun q hq => hds q (List.mem_cons_of_mem _ hq)) acc
  exact hgen details h ([], [])

/-!
The claims.
-/

/-- C9: the Activity Filter accepts every activity-type string when the
configured allow-set is empty, and accepts exactly the members of the
allow-set when it is non-empty. -/
theorem is_activity_allowed_spec (allowedTypes : List String) (t : String) :
    (allowedTypes = [] → is_activity_allowed allowedTypes (JVal.vstr t) = true) ∧
    (allowedTypes ≠ [] →
      is_activity_allowed allowedTypes (JVal.vstr t) = allowedTypes.contains t) := by
  constructor
  · intro h
    subst h
    rfl
  · intro h
    match allowedTypes with
    | [] => exact absurd rfl h
    | a :: as => rfl

/-- Witness for C9: the empty allow-set accepts "running", and the
allow-set consisting of "running" decides "walking" by membership. -/
theorem is_activity_allowed_spec_witness :
    is_activity_allowed [] (JVal.vstr "running") = true ∧
      is_activity_allowed ["running"] (JVal.vstr "walking") =
        (["running"] : List String).contains "walking" :=
  ⟨(is_activity_allowed_spec [] "running").1 rfl,
   (is_activity_allowed_spec ["running"] "walking").2 (by decide)⟩

/-- C8: the details handler's exception branch returns 503 exactly when
the exception message contains "503", returns 500 with the exception
message otherwise, and marks the body status "error" in both cases. -/
theorem details_error_handler_spec (msg : String) :
    ((detailsErrorHandler msg).httpStatus = 503 ↔
      strContains503 msg.toList = true) ∧
    (strContains503 msg.toList = false →
      (detailsErrorHandler msg).httpStatus = 500 ∧
        (detailsErrorHandler msg).errorMessage = msg) ∧
    (detailsErrorHandler msg).bodyStatus = "error" := by
  have htl : msg.toList = msg.data := rfl
  by_cases h : strContains503 msg.data = true
  · simp [detailsErrorHandler, htl, h]
  · simp [detailsErrorHandler, htl, h]

/-- Witness for C8: a message without "503" yields a 500 response
carrying the message itself. -/
theorem details_error_handler_spec_witness :
    (detailsErrorHandler "upstream failure").httpStatus = 500 ∧
      (detailsErrorHandler "upstream failure").errorMessage = "upstream failure" :=
  (details_error_handler_spec "upstream failure").2.1 (by decide)

/-- C6: the batch writer issues exactly ceil(N/500) write calls, every
batch has at most 500 points, and concatenating the batches in call
order restores the original list. -/
theorem write_in_batches_spec (ps : List Point) :
    (write_in_batches ps).length = (ps.length + 499) / 500 ∧
    (∀ b ∈ write_in_batches ps, b.length ≤ 500) ∧
    (write_in_batches ps).flatten = ps := by
  refine ⟨?_, ?_, ?_⟩
  · have h := chunkList_length 500 (by omega) ps
    simpa [write_in_batches, MAX_BATCH_SIZE] using h
  · have h := chunkList_batch_le 500 (by omega) ps
    simpa [write_in_batches, MAX_BATCH_SIZE] using h
  · have h := chunkList_flatten 500 ps
    simpa [write_in_batches, MAX_BATCH_SIZE] using h

/-- Witness for C6: the single batch produced for a one-point list has
size at most 500. -/
theorem write_in_batches_spec_witness : ([wbPoint] : List Point).length ≤ 500 :=
  (write_in_batches_spec [wbPoint]).2.1 [wbPoint]
    (by simp [write_in_batches, chunkList, MAX_BATCH_SIZE])

/-- C1 is refuted as stated: the `garmin_activity` summary point built by
the Ingest Summary handler keeps a null-valued key in its tags mapping
(the handler builds the tags dict without `filter_tags`): a source record
whose `deviceName` is null yields a point whose tags contain that null
binding. -/
theorem summary_tags_null_counterexample :
    ("deviceName", JVal.vnull) ∈ c1activity ∧
      ("deviceName", JVal.vnull) ∈ (buildSummaryPoint c1activity).tags := by
  decide

/-- C1 (amended): the fields mapping of every built point contains no
null values, and the tags mappings of the two point kinds built by the
Ingest Details handler contain no null values; only the tags of the
Ingest Summary point are exempt. -/
theorem built_points_no_null (activity sample : Record) (d : Detail) :
    (∀ kv ∈ (buildSummaryPoint activity).fields, kv.2 ≠ JVal.vnull) ∧
    (∀ kv ∈ (buildDetailsSummaryPoint d).tags, kv.2 ≠ JVal.vnull) ∧
    (∀ kv ∈ (buildDetailsSummaryPoint d).fields, kv.2 ≠ JVal.vnull) ∧
    (∀ kv ∈ (buildSamplePoint d sample).tags, kv.2 ≠ JVal.vnull) ∧
    (∀ kv ∈ (buildSamplePoint d sample).fields, kv.2 ≠ JVal.vnull) :=
  ⟨filter_fields_no_null activity summaryExclude,
   filter_tags_no_null _,
   filter_fields_no_null d.summary summaryExclude,
   filter_tags_no_null _,
   filter_fields_no_null sample sampleExclude⟩

/-- Witness for C1 (amended): a concrete field binding of a concrete
summary point is non-null. -/
theorem built_points_no_null_witness :
    (("startTimeInSeconds", JVal.vnum 100) : String × JVal).2 ≠ JVal.vnull :=
  (built_points_no_null c1activity [] c1wDetail).1
    ("startTimeInSeconds", JVal.vnum 100) (by decide)

/-- C3 is refuted as stated: for the summary-class measurements the built
point's fields mapping is not a single JSON-string field named `data`;
each remaining non-null key is kept as its own typed field, and no `data`
key exists. -/
theorem summary_fields_not_serialized_counterexample :
    (buildSummaryPoint c3summary).fields =
      [("startTimeInSeconds", JVal.vnum 1), ("durationInSeconds", JVal.vnum 100)] ∧
    List.lookup "data" (buildSummaryPoint c3summary).fields = none ∧
    (buildDetailsSummaryPoint { record := [], summary := c3summary, samples := [] }).fields =
      [("startTimeInSeconds", JVal.vnum 1), ("durationInSeconds", JVal.vnum 100)] ∧
    List.lookup "data"
        (buildDetailsSummaryPoint { record := [], summary := c3summary, samples := [] }).fields =
      none := by
  refine ⟨?_, ?_, ?_, ?_⟩ <;> rfl

/-- C3 (amended): for all three measurements the fields mapping keeps
each remaining non-null key of the source record as its own typed field,
with its original value; nothing is serialized into a `data` blob. -/
theorem fields_kept_individually (activity sample : Record) (d : Detail)
    (k : String) (v : JVal) :
    ((k, v) ∈ (buildSummaryPoint activity).fields ↔
      ((k, v) ∈ activity ∧ k ∉ summaryExclude ∧ v ≠ JVal.vnull)) ∧
    ((k, v) ∈ (buildDetailsSummaryPoint d).fields ↔
      ((k, v) ∈ d.summary ∧ k ∉ summaryExclude ∧ v ≠ JVal.vnull)) ∧
    ((k, v) ∈ (buildSamplePoint d sample).fields ↔
      ((k, v) ∈ sample ∧ k ∉ sampleExclude ∧ v ≠ JVal.vnull)) := by
  refine ⟨?_, ?_, ?_⟩ <;>
    simp [buildSummaryPoint, buildDetailsSummaryPoint, buildSamplePoint,
      filter_fields, List.mem_filter, and_assoc]

/-- Witness for C3 (amended): instantiation at a concrete record and
binding. -/
theorem fields_kept_individually_witness :
    (("durationInSeconds", JVal.vnum 100) ∈ (buildSummaryPoint c3summary).fields ↔
      (("durationInSeconds", JVal.vnum 100) ∈ c3summary ∧
        "durationInSeconds" ∉ summaryExclude ∧ JVal.vnum 100 ≠ JVal.vnull)) :=
  (fields_kept_individually c3summary [] c1wDetail "durationInSeconds"
    (JVal.vnum 100)).1

/-- C4 is refuted as stated: building the point for an activity with no
`startTimeInSeconds` key does not fail with a required-field error; the
point is built with a null time (`activity.get` defaults to None), and
the handler itself still reaches its success path, attempting the
write. -/
theorem missing_start_time_counterexample :
    List.lookup "startTimeInSeconds" c4activity = none ∧
    (buildSummaryPoint c4activity).time = JVal.vnull ∧
    garminActivityPost [] [c4activity] =
      ([buildSummaryPoint c4activity], 200, "success") := by
  refine ⟨by decide, rfl, rfl⟩

/-- C4 (amended): for every activity record without `startTimeInSeconds`
the point builder produces a point whose time is null rather than
raising, and the handler (absent a store failure) writes that point and
returns 200; a 500 with the exception message would arise only if the
store write itself raised. -/
theorem missing_start_time_null (a : Record)
    (h : List.lookup "startTimeInSeconds" a = none) :
    (buildSummaryPoint a).time = JVal.vnull ∧
    garminActivityPost [] [a] = ([buildSummaryPoint a], 200, "success") := by
  constructor
  · simp [buildSummaryPoint, pyGet, h]
  · rfl

/-- Witness for C4 (amended): instantiation at the concrete record. -/
theorem missing_start_time_null_witness :
    (buildSummaryPoint c4activity).time = JVal.vnull ∧
    garminActivityPost [] [c4activity] =
      ([buildSummaryPoint c4activity], 200, "success") :=
  missing_start_time_null c4activity (by decide)

/-- C5 is refuted as stated: the SQL query built by the GeoJSON handler
in garmin_activity.py bounds the window with `time <= end_of_day`, so a
sample timestamped exactly at the start of the next day satisfies the
query's time predicate and is not excluded. -/
theorem query_window_counterexample :
    sqlTimeWindow 0 (end_of_day 0) = true ∧ end_of_day 0 = 86400 := by
  decide

/-- C5 (amended): the window of the SQL query is the closed interval
from the start of the day to the start of the next day inclusive; the
timestamp exactly one day after the start is accepted, and the one just
past it is rejected. -/
theorem query_window_closed (s t : Int) :
    (sqlTimeWindow s t = true ↔ (s ≤ t ∧ t ≤ s + 86400)) ∧
    sqlTimeWindow s (s + 86400) = true ∧
    sqlTimeWindow s (s + 86401) = false := by
  refine ⟨?_, ?_, ?_⟩
  · simp [sqlTimeWindow, end_of_day]
  · simp [sqlTimeWindow, end_of_day]
  · simp only [sqlTimeWindow, end_of_day, Bool.and_eq_false_imp,
      decide_eq_true_eq, decide_eq_false_iff_not]
    omega

/-- Witness for C5 (amended): instantiation at day start 0 and time 0. -/
theorem query_window_closed_witness :
    (sqlTimeWindow 0 0 = true ↔ ((0 : Int) ≤ 0 ∧ (0 : Int) ≤ 0 + 86400)) ∧
    sqlTimeWindow 0 ((0 : Int) + 86400) = true ∧
    sqlTimeWindow 0 ((0 : Int) + 86401) = false :=
  query_window_closed 0 0

/-- C10: an ingest request with a non-empty input list in which the
Activity Filter rejects every activity (respectively every detail)
performs zero store write calls and still returns 200 with body status
"success". -/
theorem all_filtered_no_writes (allowedTypes : List String)
    (activities : List Record) (details : List Detail)
    (h1 : activities ≠ [])
    (h2 : ∀ a ∈ activities,
      is_activity_allowed allowedTypes (pyGet a "activityType") = false)
    (h3 : details ≠ [])
    (h4 : ∀ d ∈ details,
      is_activity_allowed allowedTypes (pyGet d.summary "activityType") = false) :
    garminActivityPost allowedTypes activities = ([], 200, "success") ∧
    garminDetailsPost allowedTypes details = ([], 200, "success") := by
  constructor
  · have hne : activities.isEmpty = false := by
      cases activities with
      | nil => exact absurd rfl h1
      | cons a as => rfl
    have hmap : activities.filterMap
        (fun a =>
          if is_activity_allowed allowedTypes (pyGet a "activityType")
          then some (buildSummaryPoint a) else none) = [] := by
      rw [List.filterMap_eq_nil_iff]
      intro a ha
      simp [h2 a ha]
    simp [garminActivityPost, hne, hmap]
  · have hne : details.isEmpty = false := by
      cases details with
      | nil => exact absurd rfl h3
      | cons d ds => rfl
    have hpts := detailPoints_all_filtered allowedTypes details h4
    simp [garminDetailsPost, hne, hpts]

/-- Witness for C10: with allow-set containing only "running", a request
of one "walking" activity and one "walking" detail is fully filtered,
writes nothing and succeeds. -/
theorem all_filtered_no_writes_witness :
    garminActivityPost ["running"] [c10activity] = ([], 200, "success") ∧
    garminDetailsPost ["running"] [c10detail] = ([], 200, "success") :=
  all_filtered_no_writes ["running"] [c10activity] [c10detail]
    (by decide) (by decide) (by decide) (by decide)

/-- C2 is refuted as stated: a query row whose latitude is the non-null
number 0 (and whose longitude is non-null) is a valid row under the
claim's definition, yet the aggregator's truthiness test drops it, so the
activity yields no feature at all instead of a one-coordinate feature. -/
theorem aggregation_validity_counterexample :
    pyGet c2row "latitudeInDegree" ≠ JVal.vnull ∧
    pyGet c2row "longitudeInDegree" ≠ JVal.vnull ∧
    sqlGeoJSON [c2row] = Except.ok [] := by
  refine ⟨by decide, by decide, rfl⟩

/-- C2 (amended): a row is accepted exactly when `activityId`, latitude,
longitude and the timestamp are all truthy (non-null AND non-zero,
non-empty); each activity's feature carries precisely the converted
(longitude, latitude) pairs of its accepted rows in source order, and an
activity with no accepted row yields no feature. -/
theorem aggregation_coords (rows : List Record) (aid : JVal)
    (hconv : ∀ r ∈ rows, sqlRowValid r = true →
      (toFloat? (pyGet r "latitudeInDegree")).isSome ∧
        (toFloat? (pyGet r "longitudeInDegree")).isSome) :
    ∃ fs, sqlGeoJSON rows = Except.ok fs ∧
      featureCoords fs aid =
        (if rowsFor sqlRowValid rows aid = [] then none
         else some ((rowsFor sqlRowValid rows aid).map coordOfRow)) := by
  refine ⟨buildFeatures (aggFold sqlRowValid sqlStep rows []), ?_, ?_⟩
  · unfold sqlGeoJSON
    rw [sqlAggregate_ok rows [] hconv]
    rfl
  · have hne : ∀ p ∈ aggFold sqlRowValid sqlStep rows [],
        p.2 ≠ ([] : List (Rat × Rat)) := by
      refine aggFold_values sqlRowValid sqlStep
        (fun l => l ≠ []) (fun r o => ?_) rows [] (by intro p hp; simp at hp)
      simp [sqlStep]
    rw [featureCoords_buildFeatures _ _ hne, aggFold_lookup]
    rw [show assocLookup ([] : List (JVal × List (Rat × Rat))) aid = none from rfl]
    by_cases h : rowsFor sqlRowValid rows aid = []
    · rw [h, if_pos rfl]
      rfl
    · rw [if_neg h, recFold_sqlStep_none _ h]

/-- Witness for C2 (amended): two rows for one activity, the second
dropped by the truthiness test, yield one feature with exactly the first
row's coordinate pair. -/
theorem aggregation_coords_witness :
    ∃ fs, sqlGeoJSON [c2wrow, c2row] = Except.ok fs ∧
      featureCoords fs (JVal.vstr "a1") =
        (if rowsFor sqlRowValid [c2wrow, c2row] (JVal.vstr "a1") = [] then none
         else some ((rowsFor sqlRowValid [c2wrow, c2row] (JVal.vstr "a1")).map
           coordOfRow)) :=
  aggregation_coords [c2wrow, c2row] (JVal.vstr "a1") (by decide)

/-- C7 is refuted as stated: a row with non-null latitude 0 is a valid
row under the claim's reading, but the aggregator's truthiness test
skips it, so the emitted feature's start time is 10 — the minimum over
the accepted rows — rather than 5, the minimum over the rows with
non-null coordinates. -/
theorem min_max_time_counterexample :
    pyGet c7row1 "latitudeInDegree" ≠ JVal.vnull ∧
    pyGet c7row1 "longitudeInDegree" ≠ JVal.vnull ∧
    timeOf c7row1 = 5 ∧ timeOf c7row2 = 10 ∧
    (geoAggregate [c7row1, c7row2] []).map buildGeoFeatures =
      Except.ok [{ activityId := JVal.vstr "a1"
                 , activityType := JVal.vstr "running"
                 , start_time := 10, end_time := 10
                 , coordinates := [(1, 2)] }] := by
  refine ⟨by decide, by decide, by decide, by decide, rfl⟩

/-- C7 (amended): for every activity that yields a feature, the feature's
start time is the minimum and its end time the maximum of the timestamps
of that activity's accepted rows — those passing the aggregator's
truthiness test on activityId, latitude, longitude and activityType. -/
theorem min_max_time (rows : List Record) (aid : JVal)
    (hconv : ∀ r ∈ rows, geoRowValid r = true →
      (toFloat? (pyGet r "latitudeInDegree")).isSome ∧
        (toFloat? (pyGet r "longitudeInDegree")).isSome ∧
        (toFloat? (pyGet r "_time")).isSome) :
    ∃ acts, geoAggregate rows [] = Except.ok acts ∧
      ∀ f, geoFeatureFind (buildGeoFeatures acts) aid = some f →
        f.start_time ∈ timesFor rows aid ∧
        (∀ t ∈ timesFor rows aid, f.start_time ≤ t) ∧
        f.end_time ∈ timesFor rows aid ∧
        (∀ t ∈ timesFor rows aid, t ≤ f.end_time) := by
  refine ⟨aggFold geoRowValid geoStep rows [], geoAggregate_ok rows [] hconv, ?_⟩
  intro f hf
  have hne : ∀ p ∈ aggFold geoRowValid geoStep rows [],
      p.2.coordinates ≠ [] := by
    refine aggFold_values geoRowValid geoStep
      (fun a => a.coordinates ≠ []) (fun r o => ?_)
      rows [] (by intro p hp; simp at hp)
    simp [geoStep, geoUpd]
  rw [geoFeatureFind_build _ _ hne, aggFold_lookup] at hf
  rw [show assocLookup ([] : List (JVal × ActAcc)) aid = none from rfl] at hf
  by_cases h : rowsFor geoRowValid rows aid = []
  · rw [h] at hf
    simp [recFold] at hf
  · obtain ⟨a, ha, hfa⟩ := Option.map_eq_some'.mp hf
    obtain ⟨hm, hl, hm', hl'⟩ :=
      recFold_geoStep_bounds (rowsFor geoRowValid rows aid) a ha h
    subst hfa
    exact ⟨hm, hl, hm', hl'⟩

/-- Witness for C7 (amended): a single accepted row yields a feature
whose start and end times are both that row's timestamp. -/
theorem min_max_time_witness :
    ∃ acts, geoAggregate [c7row2] [] = Except.ok acts ∧
      ∀ f, geoFeatureFind (buildGeoFeatures acts) (JVal.vstr "a1") = some f →
        f.start_time ∈ timesFor [c7row2] (JVal.vstr "a1") ∧
        (∀ t ∈ timesFor [c7row2] (JVal.vstr "a1"), f.start_time ≤ t) ∧
        f.end_time ∈ timesFor [c7row2] (JVal.vstr "a1") ∧
        (∀ t ∈ timesFor [c7row2] (JVal.vstr "a1"), t ≤ f.end_time) :=
  min_max_time [c7row2] (JVal.vstr "a1") (by decide)

end Garmin
